import Mathlib

/-!
Shallow embedding of the Kraken exchange client of pyalgotrade
(`pyalgotrade/kraken/httpclient.py` and `pyalgotrade/kraken/client.py`),
with theorems settling the claims about its nonce generation, HTTP
response classification, endpoint parsing and the polling monitor.

HTTP responses are modelled as oracles handed to the embedded functions:
a response carries a status code and a body; the body is `some j` when
`json.loads` would decode it to the JSON value `j`, and `none` when the
body is not valid JSON.  Python exceptions become an explicit error type
threaded through `Except`.
-/

/-- JSON values, as produced by `json.loads`.  Numbers are modelled as
rationals (exact values of the decoded literals). -/
inductive Json where
  | str : String → Json
  | num : Rat → Json
  | arr : List Json → Json
  | obj : List (String × Json) → Json
  | null : Json

/-- Dictionary lookup on the field list of a JSON object (first binding
wins), modelling Python `dict` access. -/
def jlookup : List (String × Json) → String → Option Json
  | [], _ => none
  | (k, v) :: rest, key => if k = key then some v else jlookup rest key

/-- Python truthiness of a decoded JSON value: empty strings, zero,
empty lists, empty dicts and `None` are falsy. -/
def Json.truthy : Json → Bool
  | Json.str s => !(s = "")
  | Json.num q => !(q = 0)
  | Json.arr l => !l.isEmpty
  | Json.obj l => !l.isEmpty
  | Json.null => false

/-- Python exceptions that the embedded code can raise. -/
inductive PyExc where
  /-- `httplib.HTTPException`, raised bare (no payload) by `_post` on a
  status that is neither 200 nor 504. -/
  | httpException : PyExc
  /-- `Exception(error)` raised by `_post` when the JSON body carries a
  non-empty `error` field; the payload is that field's value. -/
  | exchangeError : Json → PyExc
  /-- `KeyError(k)` from subscripting a dict that lacks key `k`. -/
  | keyError : String → PyExc
  /-- `TypeError` from subscripting or otherwise misusing a non-dict
  value (e.g. `None['trades']`). -/
  | typeError : PyExc
  /-- `AttributeError` from calling a dict method on a non-dict. -/
  | attributeError : PyExc
  /-- `ValueError` from `float()` applied to a non-numeric string. -/
  | valueError : PyExc
  /-- `IndexError` from indexing a too-short list. -/
  | indexError : PyExc
  /-- The `Exception("Not expected order description format: %s", descr)`
  raised by `Order.parse_order_descr`. -/
  | formatError : String → PyExc

/-- `j.get(k)` on a decoded JSON value: `None` when the key is absent,
`AttributeError` when `j` is not a dict. -/
def Json.get : Json → String → Except PyExc (Option Json)
  | Json.obj fields, k => Except.ok (jlookup fields k)
  | _, _ => Except.error PyExc.attributeError

/-- `r[k]` where `r` is the result of a `.get` call (so possibly `None`):
`TypeError` on `None` or a non-dict, `KeyError` on a missing key. -/
def optItem : Option Json → String → Except PyExc Json
  | none, _ => Except.error PyExc.typeError
  | some (Json.obj fields), k =>
      match jlookup fields k with
      | some v => Except.ok v
      | none => Except.error (PyExc.keyError k)
  | some _, _ => Except.error PyExc.typeError

/-- An HTTP response as seen by `HTTPClient._post`: the status code and
the body, the latter as `some j` when it decodes as JSON `j` and `none`
when `json.loads` would raise `ValueError`. -/
structure HttpResponse where
  status : Nat
  body : Option Json

/-- Outcome of `HTTPClient._post`: the returned value (`none` models
Python returning `None`), or one of the two exceptions it raises. -/
inductive PostResult where
  /-- `_post` returned: `some j` for a decoded JSON value, `none` for
  Python `None` (no response, or body not valid JSON). -/
  | ok : Option Json → PostResult
  /-- `raise httplib.HTTPException` on a status that is neither
  `httplib.OK` (200) nor 504. -/
  | httpError : PostResult
  /-- `raise Exception(error)` on a JSON dict body with truthy `error`. -/
  | exchangeError : Json → PostResult

/-- Models `HTTPClient._post(urlpath, params)`.  The nonce generation,
signing and dispatch under the lock only build the request; the response
is the oracle `response` (`none` when no response object was produced).
After the lock: a status that is neither 200 nor 504 raises
`HTTPException`; a body that is not valid JSON is logged and `None` is
returned; a dict body with a truthy `error` field raises
`Exception(error)`; otherwise the decoded value is returned.  `urlpath`
does not influence classification, exactly as in the source. -/
def HTTPClient.post (urlpath : String) (response : Option HttpResponse) : PostResult :=
  let _ := urlpath
  match response with
  | none => PostResult.ok none
  | some r =>
    if r.status ≠ 200 ∧ r.status ≠ 504 then PostResult.httpError
    else
      match r.body with
      | none => PostResult.ok none
      | some j =>
        match j with
        | Json.obj fields =>
            match jlookup fields "error" with
            | some e => if e.truthy then PostResult.exchangeError e else PostResult.ok (some j)
            | none => PostResult.ok (some j)
        | _ => PostResult.ok (some j)

/-- Lift a `_post` outcome into `Except`, for callers that let the
exceptions propagate. -/
def PostResult.toExcept : PostResult → Except PyExc (Option Json)
  | PostResult.ok j => Except.ok j
  | PostResult.httpError => Except.error PyExc.httpException
  | PostResult.exchangeError e => Except.error (PyExc.exchangeError e)

/-- `HTTPClient.apiversion`, set in `__init__`. -/
def HTTPClient.apiversion : String := "0"

/-- `HTTPClient._get_private_api_urlpath`. -/
def HTTPClient.privateApiUrlpath (method : String) : String :=
  "/" ++ HTTPClient.apiversion ++ "/private/" ++ method

/-- `HTTPClient._get_public_api_urlpath`. -/
def HTTPClient.publicApiUrlpath (method : String) : String :=
  "/" ++ HTTPClient.apiversion ++ "/public/" ++ method

/-- Models `HTTPClient._getNonce`.  `now` is `int(time.time())` at the
moment of the call and `prev` the stored `__prevNonce` (`None` before the
first call).  Returns the nonce and the updated `__prevNonce`. -/
def HTTPClient.getNonce (now : Nat) (prev : Option Nat) : Nat × Option Nat :=
  let ret := now
  let ret2 := if prev = some ret then ret + 1 else ret
  (ret2, some ret2)

/-- The nonces returned by successive `_getNonce` calls (serialized under
the client's lock), given the starting `__prevNonce` and the clock value
observed by each call. -/
def nonceSeq : Option Nat → List Nat → List Nat
  | _, [] => []
  | prev, t :: ts =>
    let r := HTTPClient.getNonce t prev
    r.1 :: nonceSeq r.2 ts

/-- Python `descr.split(" ")` at the character level: split on every
single space, keeping empty tokens between consecutive separators. -/
def splitTokens : List Char → List (List Char)
  | [] => [[]]
  | c :: cs =>
    match splitTokens cs with
    | t :: ts => if c = ' ' then [] :: t :: ts else (c :: t) :: ts
    | [] => [[c]]

/-- Parse an unsigned decimal literal as Python `float` would, keeping
the exact value as (integer part, fraction digits value, fraction digit
count); `none` models `float()` raising `ValueError`.  Signs and
exponents are not needed by any input the source feeds to `float`. -/
def parseDec : List Char → Option (Nat × Nat × Nat) :=
  let digits : List Char → Option Nat := fun l =>
    if l.isEmpty then none
    else l.foldlM (fun acc c => if c.isDigit then some (acc * 10 + (c.toNat - 48)) else none) 0
  fun l =>
    match l.splitOn '.' with
    | [w] => (digits w).map (fun n => (n, 0, 0))
    | [w, f] =>
      if w.isEmpty ∧ f.isEmpty then none
      else do
        let wn ← if w.isEmpty then some 0 else digits w
        let fn ← if f.isEmpty then some 0 else digits f
        some (wn, fn, f.length)
    | _ => none

/-- The exact rational value of a parsed decimal. -/
def decValue (d : Nat × Nat × Nat) : Rat :=
  (d.1 : Rat) + (d.2.1 : Rat) / (10 : Rat) ^ d.2.2

/-- Python `float(s)` on the strings the source converts, as an exact
rational. -/
def pyFloat (l : List Char) : Option Rat :=
  (parseDec l).map decValue

/-- The fields `Order.parse_order_descr` assigns on the order object:
`self.type`, `self.amount`, `self.pair`, `self.price`. -/
structure OrderDescr where
  type : String
  amount : Rat
  pair : String
  price : Rat

/-- Models `Order.parse_order_descr(descr)`: split the description on
single spaces; anything but exactly six tokens raises the format
exception; otherwise token 0 is the type, `float` of token 1 the amount,
token 2 the pair and `float` of token 5 the price (`float` raising
`ValueError` on a non-numeric token). -/
def Order.parse_order_descr (descr : String) : Except PyExc OrderDescr :=
  if (splitTokens descr.toList).length ≠ 6 then Except.error (PyExc.formatError descr)
  else
    match pyFloat ((splitTokens descr.toList).getD 1 []),
          pyFloat ((splitTokens descr.toList).getD 5 []) with
    | some amount, some price =>
        Except.ok { type := ((splitTokens descr.toList).getD 0 []).asString, amount := amount,
                    pair := ((splitTokens descr.toList).getD 2 []).asString, price := price }
    | _, _ => Except.error PyExc.valueError

/-- An `Order` as built by `getOpenOrders`: the constructor keyword
arguments, with the raw JSON values the source passes for them. -/
structure Order where
  id : String
  type : Json
  price : Json
  amount : Json
  opentm : Json

/-- A `UserTransaction` as built by `getUserTransactions`: it wraps the
`trade_info` dict (after `update(id=txid)`). -/
structure UserTransaction where
  data : List (String × Json)

/-- `dict.update` with a single key: overwrite the binding if present,
append it otherwise. -/
def dictSet (fields : List (String × Json)) (k : String) (v : Json) : List (String × Json) :=
  if (jlookup fields k).isSome then
    fields.map (fun p => if p.1 = k then (k, v) else p)
  else fields ++ [(k, v)]

/-- Models `HTTPClient.getOpenOrders`.  `_post` exceptions propagate; a
falsy or missing JSON response, a falsy/missing `result` and a
falsy/missing `result.get("open")` all yield the empty order list;
otherwise one `Order` is built per entry of the `open` dict from its
`descr.type`, `descr.price`, `vol` and `opentm` fields. -/
def HTTPClient.getOpenOrders (response : Option HttpResponse) : Except PyExc (List Order) := do
  let jsonResponse ← (HTTPClient.post (HTTPClient.privateApiUrlpath "OpenOrders") response).toExcept
  match jsonResponse with
  | none => Except.ok []
  | some j =>
    if j.truthy then do
      let result ← j.get "result"
      match result with
      | none => Except.ok []
      | some r =>
        if r.truthy then do
          let openDict ← r.get "open"
          match openDict with
          | none => Except.ok []
          | some ov =>
            if ov.truthy then
              match ov with
              | Json.obj entries =>
                entries.mapM (fun entry => do
                  let descr ← optItem (some entry.2) "descr"
                  let ty ← optItem (some descr) "type"
                  let pr ← optItem (some descr) "price"
                  let vol ← optItem (some entry.2) "vol"
                  let tm ← optItem (some entry.2) "opentm"
                  Except.ok { id := entry.1, type := ty, price := pr, amount := vol, opentm := tm })
              | _ => Except.error PyExc.attributeError
            else Except.ok []
        else Except.ok []
    else Except.ok []

/-- Models `HTTPClient.getUserTransactions`.  `_post` exceptions
propagate; a falsy or missing JSON response yields the empty list; a
truthy response is subscripted `result['trades']` WITHOUT a guard, so a
missing `result` key raises `TypeError` and a `result` dict without a
`trades` key raises `KeyError('trades')`. -/
def HTTPClient.getUserTransactions (response : Option HttpResponse) :
    Except PyExc (List UserTransaction) := do
  let jsonResponse ←
    (HTTPClient.post (HTTPClient.privateApiUrlpath "TradesHistory") response).toExcept
  match jsonResponse with
  | none => Except.ok []
  | some j =>
    if j.truthy then do
      let result ← j.get "result"
      let trades ← optItem result "trades"
      match trades with
      | Json.obj entries =>
        entries.mapM (fun entry =>
          match entry.2 with
          | Json.obj tradeInfo =>
              Except.ok { data := dictSet tradeInfo "id" (Json.str entry.1) }
          | _ => Except.error PyExc.attributeError)
      | _ => Except.error PyExc.attributeError
    else Except.ok []

/-- Modelled from the spec: `common.traded_pair`, the fixed traded pair
symbol from the `common` module, which is not under `src/`.  Its exact
value influences no claim (it is only used as a dictionary key and a
request parameter). -/
def traded_pair : String := "XXBTZEUR"

/-- A `Trade` as built by `getLastTrades`: `float` of the first two
entries of a trade array, with the raw timestamp and type values. -/
structure TradeRec where
  price : Rat
  amount : Rat
  time : Json
  type : Json

/-- Python `float(x)` on a decoded JSON value: numbers pass through,
numeric strings parse, anything else raises. -/
def jsonToFloat : Json → Except PyExc Rat
  | Json.num q => Except.ok q
  | Json.str s =>
      match pyFloat s.toList with
      | some q => Except.ok q
      | none => Except.error PyExc.valueError
  | _ => Except.error PyExc.typeError

/-- One `trade_arr` from a trade-history response turned into a `Trade`:
`<price>, <volume>, <time>, <buy/sell>, ...` with `float` applied to
price and volume. -/
def tradeOfArr : Json → Except PyExc TradeRec
  | Json.arr (p :: v :: t :: ty :: _) => do
      let price ← jsonToFloat p
      let amount ← jsonToFloat v
      Except.ok { price := price, amount := amount, time := t, type := ty }
  | Json.arr _ => Except.error PyExc.indexError
  | _ => Except.error PyExc.typeError

/-- Models `HTTPClient.getLastTrades(since)`.  `last_trade_id` starts as
`since`; when `_post` yields a truthy JSON response, the trades are read
from `result[traded_pair]` and the cursor from `result['last']`;
otherwise the empty list and the unchanged `since` are returned. -/
def HTTPClient.getLastTrades (since : Option Json) (response : Option HttpResponse) :
    Except PyExc (List TradeRec × Option Json) := do
  let jsonResponse ← (HTTPClient.post (HTTPClient.publicApiUrlpath "Trades") response).toExcept
  match jsonResponse with
  | none => Except.ok ([], since)
  | some j =>
    if j.truthy then do
      let result ← j.get "result"
      let tradesArrs ← optItem result traded_pair
      let lastTradeId ← optItem result "last"
      match tradesArrs with
      | Json.arr arrs => do
          let trades ← arrs.mapM tradeOfArr
          Except.ok (trades, some lastTradeId)
      | _ => Except.error PyExc.typeError
    else Except.ok ([], since)

/-- Observable state of an `ExchangeMonitor` (`client.py`): the
`__lastTradeId` cursor, the delivery `__queue` (oldest event first), the
cooperative `__stop` flag, and the number of `getLastTrades` calls this
monitor has issued (`polls` instruments the trace; it is not a source
field). -/
structure MonitorState (α β : Type) where
  lastTradeId : Option β
  queue : List (Nat × α)
  stopFlag : Bool
  polls : Nat

/-- `ExchangeMonitor.ON_TRADE`. -/
def ExchangeMonitor.ON_TRADE : Nat := 1

/-- Models `ExchangeMonitor.__init__`: cursor `None`, empty queue, stop
flag clear; no poll is issued here. -/
def ExchangeMonitor.init {α β : Type} : MonitorState α β :=
  { lastTradeId := none, queue := [], stopFlag := false, polls := 0 }

/-- Models `ExchangeMonitor.processNewTrades` against a scripted
`httpClient`: `client i` is the `(trades, last_trade_id)` pair the fake
client's `getLastTrades` returns to the monitor's `i`-th call.  The
cursor is overwritten with the returned id and `(ON_TRADE, trade)` is
enqueued for every returned trade, in order. -/
def ExchangeMonitor.processNewTrades {α β : Type} (client : Nat → List α × β)
    (s : MonitorState α β) : MonitorState α β :=
  let r := client s.polls
  { s with
    lastTradeId := some r.2
    queue := s.queue ++ r.1.map (fun t => (ExchangeMonitor.ON_TRADE, t))
    polls := s.polls + 1 }

/-- Models `ExchangeMonitor.start`: one synchronous `processNewTrades`
call, after which `threading.Thread.start` launches `run` in the
background. -/
def ExchangeMonitor.start {α β : Type} (client : Nat → List α × β)
    (s : MonitorState α β) : MonitorState α β :=
  ExchangeMonitor.processNewTrades client s

/-- Models `ExchangeMonitor.run`, the background loop, with explicit
fuel bounding the number of iterations observed: each iteration first
checks the stop flag and exits if it is set, otherwise polls via
`processNewTrades` (the inter-cycle `sleep` does not change the state). -/
def ExchangeMonitor.run {α β : Type} (client : Nat → List α × β) :
    Nat → MonitorState α β → MonitorState α β
  | 0, s => s
  | n + 1, s =>
    if s.stopFlag then s
    else ExchangeMonitor.run client n (ExchangeMonitor.processNewTrades client s)

/-- Models `ExchangeMonitor.stop`: set the cooperative stop flag. -/
def ExchangeMonitor.stop {α β : Type} (s : MonitorState α β) : MonitorState α β :=
  { s with stopFlag := true }

/-- Claim C1: successive `_getNonce` calls were claimed to return
pairwise distinct, strictly increasing nonces even when three or more
calls fall in the same clock second.  Evaluating the code at the failing
input: three calls all observing clock value 1000 (with `__prevNonce`
initially `None`) return the nonces 1000, 1001, 1000, which are neither
pairwise distinct nor strictly increasing. -/
theorem nonce_three_calls_same_second :
    nonceSeq none [1000, 1000, 1000] = [1000, 1001, 1000] ∧
    ¬ List.Pairwise (fun a b => a ≠ b) (nonceSeq none [1000, 1000, 1000]) ∧
    ¬ List.Chain' (fun a b => a < b) (nonceSeq none [1000, 1000, 1000]) := by
  have h : nonceSeq none [1000, 1000, 1000] = [1000, 1001, 1000] := by decide
  refine ⟨h, ?_, ?_⟩ <;> rw [h]
  · simp [List.pairwise_cons]
  · simp [List.chain'_cons]

/-- Claim C2, counterexample: a `_post` whose 200 response body is not
valid JSON does not raise; it returns `None`. -/
theorem post_invalid_json_counterexample :
    HTTPClient.post (HTTPClient.privateApiUrlpath "Balance")
      (some { status := 200, body := none }) = PostResult.ok none := rfl

/-- Claim C2, amended: for every call to `_post` whose response has
status 200 or 504 and a body that is not valid JSON, the decode failure
is logged and the call returns `None` (no data) instead of raising. -/
theorem post_invalid_json_returns_none (urlpath : String) (status : Nat)
    (h : status = 200 ∨ status = 504) :
    HTTPClient.post urlpath (some { status := status, body := none }) = PostResult.ok none := by
  rcases h with h | h <;> subst h <;> rfl

/-- Witness for the amended claim C2 at status 200. -/
theorem post_invalid_json_returns_none_witness :
    HTTPClient.post "/0/private/Balance" (some { status := 200, body := none })
      = PostResult.ok none :=
  post_invalid_json_returns_none "/0/private/Balance" 200 (Or.inl rfl)

/-- Claim C3: for every `_post` call, on any endpoint, whose response
(status 200, or the transient 504) decodes to a JSON dict with a truthy
`error` field, the call raises `Exception(error)` carrying that field's
value. -/
theorem post_error_field_raises (urlpath : String) (status : Nat)
    (fields : List (String × Json)) (e : Json) (hs : status = 200 ∨ status = 504)
    (he : jlookup fields "error" = some e) (ht : e.truthy = true) :
    HTTPClient.post urlpath (some { status := status, body := some (Json.obj fields) })
      = PostResult.exchangeError e := by
  rcases hs with h | h <;> subst h <;> simp [HTTPClient.post, he, ht]

/-- Witness for claim C3: the spec's example error on a private call. -/
theorem post_error_field_raises_witness :
    HTTPClient.post "/0/private/AddOrder"
      (some { status := 200,
              body := some (Json.obj [("error", Json.arr [Json.str "EOrder:Insufficient funds"])]) })
      = PostResult.exchangeError (Json.arr [Json.str "EOrder:Insufficient funds"]) :=
  post_error_field_raises "/0/private/AddOrder" 200
    [("error", Json.arr [Json.str "EOrder:Insufficient funds"])]
    (Json.arr [Json.str "EOrder:Insufficient funds"]) (Or.inl rfl) rfl rfl

/-- Claim C4, counterexample: a 504 response whose body IS valid JSON is
not turned into a "no data" result; `_post` returns the decoded value. -/
theorem post_504_counterexample :
    HTTPClient.post (HTTPClient.privateApiUrlpath "Balance")
      (some { status := 504, body := some (Json.obj [("result", Json.arr [])]) })
      = PostResult.ok (some (Json.obj [("result", Json.arr [])])) := rfl

/-- Claim C4, amended: a response status that is neither 200 nor 504
makes `_post` raise the transport exception (whatever the body), while a
504 is not raised for its status: with a body that is not valid JSON
(the usual shape of a gateway timeout) the call returns `None`, letting
the caller retry on its next cycle. -/
theorem post_status_classification (urlpath : String) (status : Nat) (body : Option Json)
    (h200 : status ≠ 200) (h504 : status ≠ 504) :
    HTTPClient.post urlpath (some { status := status, body := body }) = PostResult.httpError ∧
    HTTPClient.post urlpath (some { status := 504, body := none }) = PostResult.ok none := by
  constructor
  · simp [HTTPClient.post, h200, h504]
  · rfl

/-- Witness for the amended claim C4 at status 500 and at 504. -/
theorem post_status_classification_witness :
    HTTPClient.post "/0/private/Balance" (some { status := 500, body := none })
      = PostResult.httpError ∧
    HTTPClient.post "/0/private/Balance" (some { status := 504, body := none })
      = PostResult.ok none :=
  post_status_classification "/0/private/Balance" 500 none (by decide) (by decide)

/-- Claim C5, counterexample: constructing an `ExchangeMonitor` was
claimed to perform one synchronous poll seeding the cursor; in fact
`__init__` issues no `getLastTrades` call and leaves the cursor `None`. -/
theorem monitor_init_counterexample :
    (ExchangeMonitor.init : MonitorState Nat Nat).polls = 0 ∧
    (ExchangeMonitor.init : MonitorState Nat Nat).lastTradeId = none :=
  ⟨rfl, rfl⟩

/-- Claim C5, amended: `__init__` performs no poll and leaves the cursor
unset; the single synchronous seeding poll is performed by `start()`,
which calls `processNewTrades` once before launching the background
thread, leaving the cursor at the value returned by that first
`getLastTrades` call. -/
theorem monitor_seed_poll_in_start {α β : Type} (client : Nat → List α × β) :
    (ExchangeMonitor.init : MonitorState α β).polls = 0 ∧
    (ExchangeMonitor.init : MonitorState α β).lastTradeId = none ∧
    (ExchangeMonitor.start client ExchangeMonitor.init).polls = 1 ∧
    (ExchangeMonitor.start client ExchangeMonitor.init).lastTradeId = some (client 0).2 :=
  ⟨rfl, rfl, rfl, rfl⟩

/-- Claim C6: with a client answering the first poll with `([T1, T2],
C1)` and the second with `([T3], C2)`, the synchronous `start` poll
followed by one loop cycle delivers exactly `(ON_TRADE, T1), (ON_TRADE,
T2), (ON_TRADE, T3)` in that order, and the stored cursor is the one
returned by each cycle's `getLastTrades` call. -/
theorem monitor_delivery_order {α β : Type} (T1 T2 T3 : α) (c1 c2 : β)
    (client : Nat → List α × β)
    (h0 : client 0 = ([T1, T2], c1)) (h1 : client 1 = ([T3], c2)) :
    (ExchangeMonitor.start client ExchangeMonitor.init).lastTradeId = some c1 ∧
    (ExchangeMonitor.start client ExchangeMonitor.init).queue
      = [(ExchangeMonitor.ON_TRADE, T1), (ExchangeMonitor.ON_TRADE, T2)] ∧
    (ExchangeMonitor.run client 1 (ExchangeMonitor.start client ExchangeMonitor.init)).queue
      = [(ExchangeMonitor.ON_TRADE, T1), (ExchangeMonitor.ON_TRADE, T2),
         (ExchangeMonitor.ON_TRADE, T3)] ∧
    (ExchangeMonitor.run client 1
        (ExchangeMonitor.start client ExchangeMonitor.init)).lastTradeId = some c2 := by
  simp [ExchangeMonitor.start, ExchangeMonitor.processNewTrades, ExchangeMonitor.run,
        ExchangeMonitor.init, h0, h1]

/-- A fake client for the witness of claim C6: first poll gets trades
1, 2 and cursor 10, every later poll gets trade 3 and cursor 20. -/
def scriptedClient : Nat → List Nat × Nat :=
  fun n => if n = 0 then ([1, 2], 10) else ([3], 20)

/-- Witness for claim C6 on the concrete scripted client. -/
theorem monitor_delivery_order_witness :
    (ExchangeMonitor.start scriptedClient ExchangeMonitor.init).lastTradeId = some 10 ∧
    (ExchangeMonitor.start scriptedClient ExchangeMonitor.init).queue
      = [(ExchangeMonitor.ON_TRADE, 1), (ExchangeMonitor.ON_TRADE, 2)] ∧
    (ExchangeMonitor.run scriptedClient 1
        (ExchangeMonitor.start scriptedClient ExchangeMonitor.init)).queue
      = [(ExchangeMonitor.ON_TRADE, 1), (ExchangeMonitor.ON_TRADE, 2),
         (ExchangeMonitor.ON_TRADE, 3)] ∧
    (ExchangeMonitor.run scriptedClient 1
        (ExchangeMonitor.start scriptedClient ExchangeMonitor.init)).lastTradeId = some 20 :=
  monitor_delivery_order 1 2 3 10 20 scriptedClient rfl rfl

/-- Claim C7: once `stop()` has set the cooperative flag between cycles,
the loop observes it at the top of the next cycle and exits without
issuing another `getLastTrades` poll, whatever the state reached so far
and however many further iterations the loop could have run. -/
theorem monitor_stop_prevents_next_poll {α β : Type} (client : Nat → List α × β)
    (n : Nat) (s : MonitorState α β) :
    ExchangeMonitor.run client n (ExchangeMonitor.stop s) = ExchangeMonitor.stop s ∧
    (ExchangeMonitor.run client n (ExchangeMonitor.stop s)).polls = s.polls := by
  have h : ExchangeMonitor.run client n (ExchangeMonitor.stop s) = ExchangeMonitor.stop s := by
    cases n with
    | zero => rfl
    | succ m => simp [ExchangeMonitor.run, ExchangeMonitor.stop]
  exact ⟨h, by rw [h]; rfl⟩

/-- Claim C8: on a well-formed response whose `result` lacks the
expected listing fields, `getOpenOrders` returns the empty list, but
`getUserTransactions` raises `KeyError('trades')` instead of returning
an empty collection: the code evaluated at the failing input. -/
theorem missing_fields_listing_behaviour :
    HTTPClient.getOpenOrders
      (some { status := 200, body := some (Json.obj [("result", Json.obj [])]) })
      = Except.ok [] ∧
    HTTPClient.getUserTransactions
      (some { status := 200, body := some (Json.obj [("result", Json.obj [])]) })
      = Except.error (PyExc.keyError "trades") :=
  ⟨rfl, rfl⟩

/-- Claim C10: whenever the underlying `_post` yields no data (returns
`None`), `getLastTrades(since)` returns the empty trade list together
with the unchanged `since` cursor. -/
theorem getLastTrades_no_data_keeps_cursor (since : Option Json)
    (response : Option HttpResponse)
    (h : HTTPClient.post (HTTPClient.publicApiUrlpath "Trades") response = PostResult.ok none) :
    HTTPClient.getLastTrades since response = Except.ok ([], since) := by
  unfold HTTPClient.getLastTrades
  rw [h]
  rfl

/-- Witness for claim C10: no response object at all, with a string
cursor. -/
theorem getLastTrades_no_data_keeps_cursor_witness :
    HTTPClient.getLastTrades (some (Json.str "t0")) none
      = Except.ok ([], some (Json.str "t0")) :=
  getLastTrades_no_data_keeps_cursor (some (Json.str "t0")) none rfl

/-- Claim C9: parsing the description `"buy 0.00200000 XBTEUR @ limit
2322.000"` yields type `buy`, amount `0.002`, pair `XBTEUR` and price
`2322.0`, and any description that does not split into exactly six
space-separated tokens raises the format exception. -/
theorem parse_order_descr_spec :
    Order.parse_order_descr "buy 0.00200000 XBTEUR @ limit 2322.000"
      = Except.ok { type := "buy", amount := 0.002, pair := "XBTEUR", price := 2322 } ∧
    ∀ s : String, (splitTokens s.toList).length ≠ 6 →
      Order.parse_order_descr s = Except.error (PyExc.formatError s) := by
  constructor
  · unfold Order.parse_order_descr
    rw [show splitTokens ("buy 0.00200000 XBTEUR @ limit 2322.000").toList
        = ["buy".toList, "0.00200000".toList, "XBTEUR".toList, "@".toList, "limit".toList,
           "2322.000".toList] from by decide]
    rw [if_neg (by decide)]
    simp only [List.getD_cons_succ, List.getD_cons_zero]
    rw [show pyFloat "0.00200000".toList = some (decValue (0, 200000, 8)) from by
          unfold pyFloat
          rw [show parseDec "0.00200000".toList = some (0, 200000, 8) from by decide]
          rfl]
    rw [show pyFloat "2322.000".toList = some (decValue (2322, 0, 3)) from by
          unfold pyFloat
          rw [show parseDec "2322.000".toList = some (2322, 0, 3) from by decide]
          rfl]
    simp only [Except.ok.injEq, OrderDescr.mk.injEq]
    refine ⟨rfl, ?_, rfl, ?_⟩ <;> norm_num [decValue]
  · intro s hs
    unfold Order.parse_order_descr
    rw [if_pos hs]

/-- Witness for claim C9 on a two-token description. -/
theorem parse_order_descr_spec_witness :
    Order.parse_order_descr "buy 0.002"
      = Except.error (PyExc.formatError "buy 0.002") :=
  parse_order_descr_spec.2 "buy 0.002" (by decide)
